import Mathlib

/-
  Verification of the AGHI dashboard view-state coordinator.

  Shallow embedding of:
  - the response cache and `fetchAPI` helper of the API client
    (src/unnamed/part_000, class AGHIAPI, lines 4-181);
  - the navigation state machine of the dashboard coordinator
    (src/frontend/js/dashboard.js, class DashboardManager).

  Where the JavaScript file defines the same method twice
  (handleStateChange, loadMap, setPersona, populateDistrictDropdown),
  the later definition silently shadows the earlier one, so this
  development embeds the LAST definition of each method.
-/

namespace AGHI

/-! ## Response cache (src/unnamed/part_000)

`this.cache` is a JS `Map` from string keys to `{data, timestamp}`;
we model it as an association list with replace-by-key writes. -/

/-- A cache entry `{ data, timestamp }` as stored by `fetchAPI`
(src/unnamed/part_000 lines 37-40). -/
structure CacheEntry (V : Type) where
  data : V
  timestamp : Nat
deriving DecidableEq, Repr

/-- The response cache `this.cache : Map<string, CacheEntry>`. -/
abbrev ApiCache (V : Type) : Type := List (String × CacheEntry V)

/-- `this.cache.get(cacheKey)` (src/unnamed/part_000 line 16). -/
def cacheGet {V : Type} (c : ApiCache V) (k : String) : Option (CacheEntry V) :=
  match c.find? (fun p => p.1 == k) with
  | some p => some p.2
  | none => none

/-- `this.cache.set(cacheKey, entry)`: replace-by-key write
(src/unnamed/part_000 lines 37-40). -/
def cacheSet {V : Type} (c : ApiCache V) (k : String) (e : CacheEntry V) : ApiCache V :=
  (k, e) :: c.filter (fun p => ¬ (p.1 == k))

/-- `clearCache()` empties the whole store (src/unnamed/part_000 lines 165-167). -/
def clearCache {V : Type} (_c : ApiCache V) : ApiCache V := []

/-- `this.cacheDuration = 5 * 60 * 1000` milliseconds
(src/unnamed/part_000 line 7). -/
def cacheDuration : Nat := 5 * 60 * 1000

/-- Outcome of the underlying `fetch` of one request: a successful
response with parsed JSON body `v`, a response with `!response.ok`
(non-success status), or a rejected promise. -/
inductive NetResponse (V : Type) where
  | ok (v : V)
  | badStatus (status : Nat) (statusText : String)
  | reject (err : String)
deriving DecidableEq, Repr

instance instDecEqExcept {ε α : Type} [DecidableEq ε] [DecidableEq α] :
    DecidableEq (Except ε α) := fun x y =>
  match x, y with
  | .error a, .error b =>
      if h : a = b then isTrue (by rw [h]) else
        isFalse (fun hc => h (by injection hc))
  | .ok a, .ok b =>
      if h : a = b then isTrue (by rw [h]) else
        isFalse (fun hc => h (by injection hc))
  | .error a, .ok b => isFalse (fun hc => Except.noConfusion hc)
  | .ok a, .error b => isFalse (fun hc => Except.noConfusion hc)

/-- Result of one `fetchAPI` call: the returned/thrown value, the cache
afterwards, and whether a network request was issued. -/
structure FetchOut (V : Type) where
  result : Except String V
  cache : ApiCache V
  requested : Bool
deriving DecidableEq, Repr

/-- The try-block of `fetchAPI` after a cache miss
(src/unnamed/part_000 lines 21-46): issue the request; on `!response.ok`
throw `API Error: status statusText`; on success store
`{data, timestamp: Date.now()}` under the key and return the data; a
rejected fetch is logged and rethrown by the catch block. -/
def fetchFresh {V : Type} (net : NetResponse V) (now : Nat) (c : ApiCache V)
    (cacheKey : String) : FetchOut V :=
  match net with
  | .ok v => ⟨Except.ok v, cacheSet c cacheKey ⟨v, now⟩, true⟩
  | .badStatus status statusText =>
      ⟨Except.error ("API Error: " ++ toString status ++ " " ++ statusText), c, true⟩
  | .reject err => ⟨Except.error err, c, true⟩

/-- `fetchAPI` (src/unnamed/part_000 lines 11-47): return the cached
entry when `Date.now() - cached.timestamp < this.cacheDuration`,
otherwise fall through to the network request. -/
def fetchAPI {V : Type} (net : NetResponse V) (now : Nat) (c : ApiCache V)
    (cacheKey : String) : FetchOut V :=
  match cacheGet c cacheKey with
  | some cached =>
      if now - cached.timestamp < cacheDuration then
        ⟨Except.ok cached.data, c, false⟩
      else
        fetchFresh net now c cacheKey
  | none => fetchFresh net now c cacheKey

/-! ## Navigation state (src/frontend/js/dashboard.js)

The coordinator's navigation state: the active persona (the
`data-active-persona` attribute set by `setPersona`), `this.currentState`,
and `this.currentMapLevel`. -/

/-- The coordinator's NavigationState. -/
structure DashState where
  persona : String
  currentState : String
  currentMapLevel : String
deriving DecidableEq, Repr

/-- Startup state: the constructor sets `currentState = 'National'` and
`currentMapLevel = 'state'` (dashboard.js lines 5-6); `loadOverview`
then selects the `national` persona (line 116). -/
def initState : DashState := ⟨"national", "National", "state"⟩

/-- Completed navigation effect of `handleStateChange(newState)`
(last definition, dashboard.js lines 726-789): `currentState := newState`
(line 728) and `currentMapLevel := 'state'` when `newState == 'National'`,
else `'district'` (lines 749-755). -/
def handleStateChange (s : DashState) (newState : String) : DashState :=
  { s with
      currentState := newState,
      currentMapLevel := if newState = "National" then "state" else "district" }

/-! ## setPersona (last definition, dashboard.js lines 440-473)

The UI state that `setPersona` touches beyond NavigationState: the
`trendMetric` select element (which may be absent from the page) and its
value. `PersonaEffects` records which reloads the call triggers. -/

/-- Navigation state plus the `trendMetric` select element. -/
structure UiState where
  nav : DashState
  trendMetricPresent : Bool
  trendMetricValue : String
deriving DecidableEq, Repr

/-- Reloads and drill-downs triggered by one `setPersona` call:
`trendsReloaded` for `loadTrends()`, `opsReloaded`/`opsRegion` for
`loadCriticalOps()` (which requests `getOperationsData(this.currentState)`,
dashboard.js lines 915-917), `mapReloadArg` for a direct `loadMap(...)`
call, `drilledTo` for a `drillDownToState(...)` call. -/
structure PersonaEffects where
  trendsReloaded : Bool
  opsReloaded : Bool
  opsRegion : Option String
  mapReloadArg : Option (Option String)
  drilledTo : Option String
deriving DecidableEq, Repr

/-- No reloads triggered. -/
def noPersonaEffects : PersonaEffects := ⟨false, false, none, none, none⟩

/-- `setPersona(persona)` (last definition, dashboard.js lines 440-473):
sets the `data-active-persona` attribute; `national` drills to
`'National'` unless already there (else re-renders the map); `state`
drills to the demo region `'Maharashtra'` when at `'National'` (else
re-renders the map for the current region); `ops` sets the trend metric
selector to `'updates'` and reloads trends (both only when the selector
exists) and always reloads the operations panel for the current region. -/
def setPersonaUi (u : UiState) (persona : String) : UiState × PersonaEffects :=
  let nav1 : DashState := { u.nav with persona := persona }
  if persona = "national" then
    if nav1.currentState ≠ "National" then
      ({ u with nav := handleStateChange nav1 "National" },
       { noPersonaEffects with drilledTo := some "National" })
    else
      ({ u with nav := nav1 }, { noPersonaEffects with mapReloadArg := some none })
  else if persona = "state" then
    if nav1.currentState = "National" then
      ({ u with nav := handleStateChange nav1 "Maharashtra" },
       { noPersonaEffects with drilledTo := some "Maharashtra" })
    else
      ({ u with nav := nav1 },
       { noPersonaEffects with mapReloadArg := some (some nav1.currentState) })
  else if persona = "ops" then
    if u.trendMetricPresent then
      ({ u with nav := nav1, trendMetricValue := "updates" },
       { noPersonaEffects with
           trendsReloaded := true, opsReloaded := true,
           opsRegion := some nav1.currentState })
    else
      ({ u with nav := nav1 },
       { noPersonaEffects with opsReloaded := true, opsRegion := some nav1.currentState })
  else
    ({ u with nav := nav1 }, noPersonaEffects)

/-- Navigation-state projection of `setPersona` (the `trendMetric`
element does not influence NavigationState). -/
def setPersonaNav (s : DashState) (p : String) : DashState :=
  (setPersonaUi ⟨s, true, ""⟩ p).1.nav

/-! ## refreshDashboard (dashboard.js lines 1092-1097)

`refreshDashboard` runs `this.api.clearCache()`, awaits
`this.api.refreshData()` (which clears the cache again on success,
src/unnamed/part_000 line 150), then awaits `this.init()`. `init`
re-runs every panel load; its `loadOverview`, on a successful overview
fetch, calls `this.setPersona('national')` (dashboard.js line 116).
`overviewOk` says whether that overview fetch succeeded; the loads run
by `init` write only post-clear entries into the cache, so the cache
component below is the store as observed by a request issued right
after the synchronous clear. -/

/-- Navigation-state effect of `refreshDashboard`. -/
def refreshNav (s : DashState) (overviewOk : Bool) : DashState :=
  if overviewOk then setPersonaNav s "national" else s

/-- `refreshDashboard`: cleared cache plus the navigation effect of the
re-run startup sequence. -/
def refreshDashboard {V : Type} (s : DashState) (c : ApiCache V)
    (overviewOk : Bool) : DashState × ApiCache V :=
  (refreshNav s overviewOk, clearCache c)

/-! ## The navigation transitions as a state machine (spec section 4.3) -/

/-- One navigation transition of the coordinator. -/
inductive NavOp where
  | drill (region : String)
  | persona (p : String)
  | refresh (overviewOk : Bool)

/-- Completed navigation effect of one transition. -/
def applyNavOp (s : DashState) : NavOp → DashState
  | .drill r => handleStateChange s r
  | .persona p => setPersonaNav s p
  | .refresh ok => refreshNav s ok

/-- The mapLevel derivation invariant: `currentMapLevel` is `'state'`
exactly at `'National'` and `'district'` otherwise. -/
def navInv (s : DashState) : Prop :=
  s.currentMapLevel = (if s.currentState = "National" then "state" else "district")

/-! ## Interleaved executions of handleStateChange (spec section 5)

`handleStateChange` mutates `this.currentState` synchronously
(dashboard.js line 728) but, when the target is not `'National'`, it
`await`s `populateDistrictDropdown()` (line 744) BEFORE assigning
`this.currentMapLevel` (lines 749-755). We split each transition into
its atomic segments between `await` points, keeping only the statements
that mutate NavigationState; a schedule for two back-to-back calls is
the first call's synchronous segment followed by any interleaving of its
remaining segments with the second call's segments. -/

/-- The NavigationState-mutating segments of `handleStateChange(r)`,
one list entry per uninterrupted synchronous stretch. For
`r == 'National'` both assignments happen before the first `await`; otherwise
`currentMapLevel := 'district'` runs only after the awaited
`populateDistrictDropdown()` resolves. -/
def hscSegments (r : String) : List (DashState → DashState) :=
  if r = "National" then
    [fun s => { s with currentState := r, currentMapLevel := "state" }]
  else
    [fun s => { s with currentState := r },
     fun s => { s with currentMapLevel := "district" }]

/-- Run a schedule of atomic segments from a starting state. -/
def runSegs (s : DashState) (sched : List (DashState → DashState)) : DashState :=
  sched.foldl (fun t f => f t) s

/-- `Interleave xs ys zs`: `zs` is an order-preserving merge of `xs`
and `ys` (the single-threaded event loop runs each task's segments in
order but may switch tasks at any suspension point). -/
inductive Interleave {α : Type} : List α → List α → List α → Prop where
  | nil : Interleave [] [] []
  | left {x : α} {xs ys zs : List α} :
      Interleave xs ys zs → Interleave (x :: xs) ys (x :: zs)
  | right {y : α} {xs ys zs : List α} :
      Interleave xs ys zs → Interleave xs (y :: ys) (y :: zs)

/-- Schedules realizable when `drillDown(X)` is issued and `drillDown(Y)`
follows immediately: `X`'s first synchronous segment runs first, then
the event loop interleaves the two transitions' remaining segments in
any order. -/
def rapidSchedules (X Y : String) (sched : List (DashState → DashState)) : Prop :=
  ∃ rest, sched = (hscSegments X).take 1 ++ rest ∧
    Interleave ((hscSegments X).drop 1) (hscSegments Y) rest

/-! ## Panel reload orchestration (dashboard.js lines 484-531, 570-634,
726-789, 915-970)

`handleStateChange` awaits `Promise.all([loadMap(...), loadTrends(),
loadRankings(), loadCriticalOps()])`. Every one of these loads wraps its
whole body in try/catch, so a failed fetch never rejects the combined
promise. The catch blocks differ: `loadMap` calls
`this.showError('Failed to load map data')` (a user-visible toast,
line 912), while `loadTrends` (line 632), `loadRankings` (line 529) and
`loadCriticalOps` (line 968) only `console.error` and leave the panel's
DOM untouched. We model the DOM mounts by the dataset last rendered into
each (`none` = never rendered) plus the toast list. -/

/-- The four panel mounts reloaded by `handleStateChange`, plus toasts. -/
structure PanelDom where
  mapContent : Option Nat
  trendContent : Option Nat
  rankingContent : Option Nat
  opsContent : Option Nat
  toasts : List String
deriving DecidableEq, Repr

/-- `loadMap`: render the fetched dataset, or show the error toast from
the catch block (dashboard.js lines 910-913). -/
def loadMapPanel (r : Except String Nat) (d : PanelDom) : PanelDom :=
  match r with
  | .ok v => { d with mapContent := some v }
  | .error _ => { d with toasts := d.toasts ++ ["Failed to load map data"] }

/-- `loadTrends`: render, or only `console.error` in the catch block
(dashboard.js lines 631-633). -/
def loadTrendsPanel (r : Except String Nat) (d : PanelDom) : PanelDom :=
  match r with
  | .ok v => { d with trendContent := some v }
  | .error _ => d

/-- `loadRankings`: render, or only `console.error` in the catch block
(dashboard.js lines 528-530). -/
def loadRankingsPanel (r : Except String Nat) (d : PanelDom) : PanelDom :=
  match r with
  | .ok v => { d with rankingContent := some v }
  | .error _ => d

/-- `loadCriticalOps`: render, or only `console.error` in the catch
block (dashboard.js lines 967-969). -/
def loadOpsPanel (r : Except String Nat) (d : PanelDom) : PanelDom :=
  match r with
  | .ok v => { d with opsContent := some v }
  | .error _ => d

/-- `handleStateChange` with its panel reload: the navigation state is
updated, then all four loads run (their DOM mounts are disjoint, so the
completion order does not matter); each load handles its own failure. -/
def handleStateChangeReload (s : DashState) (newState : String)
    (mapR trendR rankR opsR : Except String Nat) (d : PanelDom) :
    DashState × PanelDom :=
  (handleStateChange s newState,
   loadOpsPanel opsR (loadRankingsPanel rankR (loadTrendsPanel trendR (loadMapPanel mapR d))))

/-- A page with nothing rendered yet. -/
def emptyPanelDom : PanelDom := ⟨none, none, none, none, []⟩

/-! ## Geometry store (dashboard.js lines 800-816, last `loadMap`)

`this.geoData = { state: null, district: null }` (line 7). On a cache
miss for `this.geoData[level]`, `loadMap` fetches the local file
`data/india_*.geojson` and falls back to the remote GitHub URL if that
read fails; a loaded bundle is kept for the process lifetime. -/

/-- The two lazily loaded geometry slots of `this.geoData`. -/
structure GeoStore (α : Type) where
  stateGeo : Option α
  districtGeo : Option α
deriving DecidableEq, Repr

/-- `this.geoData[level]`. -/
def geoSlot {α : Type} (g : GeoStore α) (level : String) : Option α :=
  if level = "state" then g.stateGeo else g.districtGeo

/-- `this.geoData[level] = v`. -/
def setGeoSlot {α : Type} (g : GeoStore α) (level : String) (v : Option α) : GeoStore α :=
  if level = "state" then { g with stateGeo := v } else { g with districtGeo := v }

/-- Outcome of reading one geometry source. -/
inductive SrcResult (α : Type) where
  | ok (g : α)
  | fail
deriving DecidableEq, Repr

/-- One geometry-loading step: the store afterwards plus how many reads
of the primary (local) and secondary (remote) source were attempted. -/
structure GeoFetchOut (α : Type) where
  store : GeoStore α
  localReads : Nat
  remoteFetches : Nat
deriving DecidableEq, Repr

/-- The geometry-loading block of the last `loadMap`
(dashboard.js lines 800-816): if `this.geoData[level]` is unset, try the
local file; if that read fails, fetch the remote URL; on total failure
the slot stays unset (the thrown error is caught by `loadMap`). -/
def ensureGeoLoaded {α : Type} (localSrc remoteSrc : SrcResult α)
    (g : GeoStore α) (level : String) : GeoFetchOut α :=
  match geoSlot g level with
  | some _ => ⟨g, 0, 0⟩
  | none =>
      match localSrc with
      | .ok geo => ⟨setGeoSlot g level (some geo), 1, 0⟩
      | .fail =>
          match remoteSrc with
          | .ok geo => ⟨setGeoSlot g level (some geo), 1, 1⟩
          | .fail => ⟨g, 1, 1⟩

/-! ## Search (dashboard.js lines 1018-1022, 1099-1122, 1124-1193)

The `mapSearch` input listener lowercases the value and calls
`performMapSearch(query)` only when `query.length > 2`.
`performMapSearch` fetches state and district map data through the
cached gateway and hands the district matches to
`showSearchSuggestions`, which renders the dropdown (with an explicit
`No results found` row when nothing matched). -/

/-- A row of `getMapData` output, with the fields the search code reads. -/
structure RegionRecord where
  state : String
  district : String
  aghi_score : Nat
  district_count : Nat
deriving DecidableEq, Repr

/-- JavaScript `String.prototype.toLowerCase()`. -/
def jsToLower (s : String) : String := String.mk (s.data.map Char.toLower)

/-- `sub` occurs at the start of `hay` (on character lists). -/
def charsStartWith : List Char → List Char → Bool
  | _, [] => true
  | [], _ :: _ => false
  | a :: as, b :: bs => a == b && charsStartWith as bs

/-- `sub` occurs somewhere inside `hay` (on character lists). -/
def charsContain (hay sub : List Char) : Bool :=
  match hay with
  | [] => charsStartWith [] sub
  | _ :: t => charsStartWith hay sub || charsContain t sub

/-- JavaScript `hay.includes(sub)`: substring containment. -/
def jsIncludes (hay sub : String) : Bool := charsContain hay.data sub.data

/-- The suggestions dropdown under the map search box: absent, a result
list (state section and district section), or the explicit
`No results found` row. -/
inductive SuggestionsDom where
  | absent
  | results (states : List RegionRecord) (districts : List RegionRecord)
  | noResults
deriving DecidableEq, Repr

/-- `matchingStates` inside `showSearchSuggestions` (dashboard.js lines
1152-1154): case-insensitive substring filter over the state records,
capped with `.slice(0, 5)`. -/
def matchingStates (stateData : List RegionRecord) (query : String) :
    List RegionRecord :=
  (stateData.filter (fun d => jsIncludes (jsToLower d.state) (jsToLower query))).take 5

/-- `districtMatches` inside `performMapSearch` (dashboard.js lines
1111-1114): district records whose district or state name contains the
query. -/
def districtMatchesOf (districtData : List RegionRecord) (query : String) :
    List RegionRecord :=
  districtData.filter (fun d =>
    jsIncludes (jsToLower d.district) (jsToLower query) ||
    jsIncludes (jsToLower d.state) (jsToLower query))

/-- `showSearchSuggestions(query, stateData, districtMatches)`
(dashboard.js lines 1124-1193): bail out for `query.length < 2`; show
the state matches (first 5) and district matches (first 8); when both
sections are empty the rendered html is the `No results found` row. -/
def showSearchSuggestions (query : String) (stateData : List RegionRecord)
    (districtMatched : List RegionRecord) : SuggestionsDom :=
  if query.length < 2 then .absent
  else
    let ms := matchingStates stateData query
    let md := districtMatched.take 8
    if ms.isEmpty && md.isEmpty then .noResults
    else .results ms md

/-- The `mapSearch` input listener (dashboard.js lines 1019-1022)
composed with `performMapSearch`/`showSearchSuggestions`, given the
resolved map-data collections: the listener lowercases the value and
only calls `performMapSearch` when `query.length > 2`. -/
def onSearchInput (stateData districtData : List RegionRecord)
    (value : String) : SuggestionsDom :=
  let query := jsToLower value
  if 2 < query.length then
    showSearchSuggestions query stateData (districtMatchesOf districtData query)
  else .absent

/-! ## performMapSearch as a cache/network client (dashboard.js lines
1099-1122)

`performMapSearch` awaits `this.api.getMapData('state')` then
`this.api.getMapData('district')`; both route through `fetchAPI`
(src/unnamed/part_000 lines 55-57), whose cache key is the request URL
plus `JSON.stringify({})`. An error thrown by either fetch is caught and
logged; NavigationState is never written. -/

/-- The `fetchAPI` cache key of `getMapData(level)`. -/
def mapDataKey (level : String) : String :=
  "http://localhost:5000/api/map-data?level=" ++ level ++ "\x7b\x7d"

/-- Result of one `performMapSearch` run: the navigation state
afterwards, the response cache afterwards, and how many network
requests the run issued. -/
structure SearchRun (V : Type) where
  nav : DashState
  cache : ApiCache V
  requests : Nat
deriving DecidableEq, Repr

/-- Count one issued request. -/
def reqCount (b : Bool) : Nat := if b then 1 else 0

/-- `performMapSearch(query)` as a cache/network client: fetch state
map data, then (unless that threw) district map data; the catch block
only logs. The suggestion rendering itself is pure
(`showSearchSuggestions` above). -/
def performMapSearch {V : Type} (netS netD : NetResponse V) (now : Nat)
    (s : DashState) (c : ApiCache V) (_query : String) : SearchRun V :=
  match fetchAPI netS now c (mapDataKey "state") with
  | ⟨Except.error _, c1, r1⟩ => ⟨s, c1, reqCount r1⟩
  | ⟨Except.ok _, c1, r1⟩ =>
      match fetchAPI netD now c1 (mapDataKey "district") with
      | ⟨_, c2, r2⟩ => ⟨s, c2, reqCount r1 + reqCount r2⟩

/-- A cache entry for key `k` is present and within its TTL. -/
def isFresh {V : Type} (c : ApiCache V) (k : String) (now : Nat) : Bool :=
  match cacheGet c k with
  | some e => decide (now - e.timestamp < cacheDuration)
  | none => false

/-- The concrete two-transition schedule of the C2 race: `drillDown`
to a state suspends at `populateDistrictDropdown()`, `drillDown` back to
`'National'` completes synchronously, then the first transition resumes
and assigns `currentMapLevel := 'district'`. -/
def staleResumeSched : List (DashState → DashState) :=
  [fun s => { s with currentState := "Maharashtra" },
   fun s => { s with currentState := "National", currentMapLevel := "state" },
   fun s => { s with currentMapLevel := "district" }]

/-- A schedule where the second drill-down fully completes last. -/
def rapidSchedW : List (DashState → DashState) :=
  [fun s => { s with currentState := "Bihar" },
   fun s => { s with currentState := "Kerala" },
   fun s => { s with currentMapLevel := "district" },
   fun s => { s with currentMapLevel := "district" }]

/-- One state record whose name matches the query `"ab"`. -/
def demoStates : List RegionRecord := [⟨"Abra", "", 50, 3⟩]

/-- A cache holding fresh entries for both map-data keys at `now = 100`. -/
def freshSearchCache : ApiCache Nat :=
  [(mapDataKey "state", ⟨0, 50⟩), (mapDataKey "district", ⟨0, 60⟩)]

/-! # Helper lemmas -/

theorem cacheGet_cacheSet_self {V : Type} (c : ApiCache V) (k : String)
    (e : CacheEntry V) : cacheGet (cacheSet c k e) k = some e := by
  simp [cacheGet, cacheSet, List.find?]

theorem cacheGet_clearCache {V : Type} (c : ApiCache V) (k : String) :
    cacheGet (clearCache c) k = none := by
  simp [cacheGet, clearCache, List.find?]

theorem navInv_initState : navInv initState := by
  simp [navInv, initState]

theorem navInv_handleStateChange (s : DashState) (r : String) :
    navInv (handleStateChange s r) := by
  by_cases h : r = "National" <;> simp [navInv, handleStateChange, h]

theorem navInv_setPersonaNav (s : DashState) (p : String) (h : navInv s) :
    navInv (setPersonaNav s p) := by
  unfold navInv at h ⊢
  unfold setPersonaNav setPersonaUi handleStateChange
  by_cases h1 : p = "national" <;> by_cases h2 : p = "state" <;>
    by_cases h3 : p = "ops" <;> by_cases h4 : s.currentState = "National" <;>
    simp_all

theorem navInv_applyNavOp (s : DashState) (op : NavOp) (h : navInv s) :
    navInv (applyNavOp s op) := by
  cases op with
  | drill r => exact navInv_handleStateChange s r
  | persona p => exact navInv_setPersonaNav s p h
  | refresh ok =>
      cases ok with
      | true => exact navInv_setPersonaNav s "national" h
      | false => exact h

theorem navInv_foldl (ops : List NavOp) (s : DashState) (h : navInv s) :
    navInv (ops.foldl applyNavOp s) := by
  induction ops generalizing s with
  | nil => exact h
  | cons op rest ih => exact ih _ (navInv_applyNavOp s op h)

theorem interleave_nil_left {α : Type} {ys zs : List α}
    (h : Interleave [] ys zs) : zs = ys := by
  induction ys generalizing zs with
  | nil => cases h; rfl
  | cons y ys ih => cases h with
    | right h2 => rw [ih h2]

theorem interleave_nil_right {α : Type} {xs zs : List α}
    (h : Interleave xs [] zs) : zs = xs := by
  induction xs generalizing zs with
  | nil => cases h; rfl
  | cons x xs ih => cases h with
    | left h2 => rw [ih h2]

theorem geoSlot_setGeoSlot_self {α : Type} (g : GeoStore α) (level : String)
    (v : Option α) : geoSlot (setGeoSlot g level v) level = v := by
  by_cases h : level = "state" <;> simp [geoSlot, setGeoSlot, h]

theorem jsToLower_length (s : String) : (jsToLower s).length = s.length := by
  cases s with
  | mk data =>
      show (data.map Char.toLower).length = data.length
      simp

theorem fetchAPI_fresh {V : Type} (net : NetResponse V) (now : Nat)
    (c : ApiCache V) (k : String) (h : isFresh c k now = true) :
    (fetchAPI net now c k).requested = false ∧
    (fetchAPI net now c k).cache = c ∧
    ∃ v, (fetchAPI net now c k).result = Except.ok v := by
  unfold isFresh at h
  unfold fetchAPI
  cases hg : cacheGet c k with
  | none => rw [hg] at h; cases h
  | some e =>
      rw [hg] at h
      have hlt : now - e.timestamp < cacheDuration := of_decide_eq_true h
      simp [hg, hlt]

/-! # Claim theorems -/

/-- Claim C4: a `fetchAPI` read that finds a cache entry whose age is
strictly below the fixed 5-minute TTL returns that entry's value with no
network request and an unchanged cache; a read that finds an older entry
issues the network request, the stale entry is overwritten in place by a
successful fetch, and a failed fetch leaves it untouched (no proactive
eviction). -/
theorem C4_cache_ttl_read (c : ApiCache Nat) (k : String) (e : CacheEntry Nat)
    (now : Nat) (net : NetResponse Nat) (h : cacheGet c k = some e) :
    (now - e.timestamp < cacheDuration →
       fetchAPI net now c k = ⟨Except.ok e.data, c, false⟩) ∧
    (cacheDuration ≤ now - e.timestamp →
       (fetchAPI net now c k).requested = true ∧
       (∀ v, net = NetResponse.ok v →
          cacheGet (fetchAPI net now c k).cache k = some ⟨v, now⟩) ∧
       ((∀ v, net ≠ NetResponse.ok v) → (fetchAPI net now c k).cache = c)) := by
  constructor
  · intro hf
    simp [fetchAPI, h, hf]
  · intro hs
    have hlt : ¬ (now - e.timestamp < cacheDuration) := not_lt.mpr hs
    refine ⟨?_, ?_, ?_⟩
    · cases net <;> simp [fetchAPI, h, hlt, fetchFresh]
    · intro v hv
      subst hv
      simp [fetchAPI, h, hlt, fetchFresh, cacheGet_cacheSet_self]
    · intro hne
      cases net with
      | ok v => exact absurd rfl (hne v)
      | badStatus a b => simp [fetchAPI, h, hlt, fetchFresh]
      | reject m => simp [fetchAPI, h, hlt, fetchFresh]

/-- Witness for C4 at a concrete fresh entry. -/
theorem C4_witness :
    fetchAPI (NetResponse.ok 9) 150 [("k", (⟨5, 100⟩ : CacheEntry Nat))] "k" =
      ⟨Except.ok 5, [("k", ⟨5, 100⟩)], false⟩ :=
  (C4_cache_ttl_read [("k", ⟨5, 100⟩)] "k" ⟨5, 100⟩ 150 (NetResponse.ok 9)
    (by decide)).1 (by decide)

/-- Claim C10: when the underlying fetch rejects or returns a
non-success status, `fetchAPI` rethrows an error and the response cache
is exactly as before the call (entries are written only after a
successful response). -/
theorem C10_failed_fetch_cache_atomic (c : ApiCache Nat) (k : String)
    (now : Nat) (net : NetResponse Nat) (h : ∀ v, net ≠ NetResponse.ok v) :
    (fetchAPI net now c k).cache = c ∧
    ((fetchAPI net now c k).requested = true →
       ∃ msg, (fetchAPI net now c k).result = Except.error msg) := by
  unfold fetchAPI
  cases hg : cacheGet c k with
  | some e =>
      by_cases ht : now - e.timestamp < cacheDuration
      · simp [ht]
      · simp only [ht, if_false]
        cases net with
        | ok v => exact absurd rfl (h v)
        | badStatus a b => exact ⟨rfl, fun _ => ⟨_, rfl⟩⟩
        | reject m => exact ⟨rfl, fun _ => ⟨_, rfl⟩⟩
  | none =>
      cases net with
      | ok v => exact absurd rfl (h v)
      | badStatus a b => exact ⟨rfl, fun _ => ⟨_, rfl⟩⟩
      | reject m => exact ⟨rfl, fun _ => ⟨_, rfl⟩⟩

/-- Witness for C10 at a concrete rejected fetch over a one-entry cache. -/
theorem C10_witness :
    (fetchAPI (NetResponse.reject "network down") 999999999
        [("k", (⟨5, 100⟩ : CacheEntry Nat))] "k").cache = [("k", ⟨5, 100⟩)] :=
  (C10_failed_fetch_cache_atomic [("k", ⟨5, 100⟩)] "k" 999999999
    (NetResponse.reject "network down") (by intro v h; cases h)).1

/-- Claim C1 (amended): `refreshDashboard` clears the response cache as
its first synchronous step, so any request issued against the store
right after the refresh goes to the network instead of being served a
pre-refresh value, and it re-runs the full startup sequence; but that
startup sequence calls `setPersona('national')` from `loadOverview`, so
persona is reset to `'national'` and selectedRegion to `'National'`
rather than being preserved. -/
theorem C1_refresh_clears_cache_and_resets_nav (s0 : DashState)
    (c : ApiCache Nat) (net : NetResponse Nat) (now : Nat) (k : String) :
    (fetchAPI net now (refreshDashboard s0 c true).2 k).requested = true ∧
    (refreshDashboard s0 c true).1.persona = "national" ∧
    (refreshDashboard s0 c true).1.currentState = "National" := by
  refine ⟨?_, ?_, ?_⟩
  · show (fetchAPI net now (clearCache c) k).requested = true
    unfold fetchAPI
    rw [cacheGet_clearCache]
    cases net <;> rfl
  · unfold refreshDashboard refreshNav setPersonaNav setPersonaUi handleStateChange
    by_cases h : s0.currentState = "National" <;> simp [h]
  · unfold refreshDashboard refreshNav setPersonaNav setPersonaUi handleStateChange
    by_cases h : s0.currentState = "National" <;> simp [h]

/-- Counterexample to C1 as stated: starting from persona `'ops'` at
`'Maharashtra'`, a refresh leaves neither persona nor selectedRegion at
its pre-refresh value. -/
theorem C1_counterexample :
    (refreshDashboard ⟨"ops", "Maharashtra", "district"⟩ ([] : ApiCache Nat)
        true).1.persona ≠ "ops" ∧
    (refreshDashboard ⟨"ops", "Maharashtra", "district"⟩ ([] : ApiCache Nat)
        true).1.currentState ≠ "Maharashtra" := by
  decide

/-- Claim C3: after every sequence of completed navigation transitions
(drill-down, persona change, refresh) from the startup state, the
NavigationState satisfies `mapLevel == 'district'` iff
`selectedRegion != 'National'`, equivalently `mapLevel == 'state'` iff
`selectedRegion == 'National'`. -/
theorem C3_mapLevel_invariant (ops : List NavOp) :
    ((ops.foldl applyNavOp initState).currentMapLevel = "district" ↔
       (ops.foldl applyNavOp initState).currentState ≠ "National") ∧
    ((ops.foldl applyNavOp initState).currentMapLevel = "state" ↔
       (ops.foldl applyNavOp initState).currentState = "National") := by
  have h := navInv_foldl ops initState navInv_initState
  unfold navInv at h
  by_cases hc : (ops.foldl applyNavOp initState).currentState = "National" <;>
    simp [hc] at h <;> simp [h, hc]

/-- Claim C7: `setPersona('ops')` (with the `trendMetric` selector
present on the page) sets the trend metric selector to `'updates'`,
reloads the trends panel and the operations panel requesting operations
data for the current selectedRegion, and leaves selectedRegion and
mapLevel unchanged. -/
theorem C7_ops_persona_frame (u : UiState) (h : u.trendMetricPresent = true) :
    (setPersonaUi u "ops").1.trendMetricValue = "updates" ∧
    (setPersonaUi u "ops").2.trendsReloaded = true ∧
    (setPersonaUi u "ops").2.opsReloaded = true ∧
    (setPersonaUi u "ops").2.opsRegion = some u.nav.currentState ∧
    (setPersonaUi u "ops").1.nav.currentState = u.nav.currentState ∧
    (setPersonaUi u "ops").1.nav.currentMapLevel = u.nav.currentMapLevel ∧
    (setPersonaUi u "ops").1.nav.persona = "ops" := by
  simp [setPersonaUi, h, noPersonaEffects]

/-- Witness for C7 at the startup state with the selector present. -/
theorem C7_witness :
    (setPersonaUi ⟨⟨"national", "National", "state"⟩, true, "aghi"⟩
        "ops").1.trendMetricValue = "updates" ∧
    (setPersonaUi ⟨⟨"national", "National", "state"⟩, true, "aghi"⟩
        "ops").2.opsRegion = some "National" :=
  ⟨(C7_ops_persona_frame ⟨⟨"national", "National", "state"⟩, true, "aghi"⟩ rfl).1,
   (C7_ops_persona_frame ⟨⟨"national", "National", "state"⟩, true, "aghi"⟩ rfl).2.2.2.1⟩

/-- Claim C2 (amended): when `drillDown(X)` is immediately followed by
`drillDown(Y)`, `currentState` is mutated synchronously before any
awaited work, so under every completion order it ends equal to `Y` (and
persona is untouched); moreover whenever `Y != 'National'` the whole
NavigationState ends equal to `Y`'s completed resulting state. The
unamended claim fails because `currentMapLevel` is assigned only after
the awaited `populateDistrictDropdown()`, so for `X != 'National'`,
`Y == 'National'` a late resume of `X`'s transition can leave
`currentMapLevel = 'district'`. -/
theorem C2_rapid_drilldown_state (X Y : String) (s0 : DashState)
    (sched : List (DashState → DashState)) (h : rapidSchedules X Y sched) :
    (runSegs s0 sched).currentState = Y ∧
    (runSegs s0 sched).persona = s0.persona ∧
    (Y ≠ "National" → runSegs s0 sched = handleStateChange s0 Y) := by
  obtain ⟨rest, hs, hI⟩ := h
  subst hs
  by_cases hX : X = "National"
  · subst hX
    have hr : rest = hscSegments Y := interleave_nil_left hI
    subst hr
    by_cases hY : Y = "National"
    · subst hY
      exact ⟨rfl, rfl, fun hne => absurd rfl hne⟩
    · simp only [hscSegments, if_pos rfl, if_neg hY]
      refine ⟨rfl, rfl, fun _ => ?_⟩
      simp [runSegs, handleStateChange, hY]
  · simp only [hscSegments, if_neg hX] at hI ⊢
    by_cases hY : Y = "National"
    · subst hY
      simp only [hscSegments, if_pos rfl] at hI
      cases hI with
      | left h2 =>
          have h3 := interleave_nil_left h2
          subst h3
          exact ⟨rfl, rfl, fun hne => absurd rfl hne⟩
      | right h2 =>
          have h3 := interleave_nil_right h2
          subst h3
          exact ⟨rfl, rfl, fun hne => absurd rfl hne⟩
    · simp only [hscSegments, if_neg hY] at hI
      cases hI with
      | left h2 =>
          have h3 := interleave_nil_left h2
          subst h3
          refine ⟨rfl, rfl, fun _ => ?_⟩
          simp [runSegs, handleStateChange, hY]
      | right h2 =>
          cases h2 with
          | left h3 =>
              have h4 := interleave_nil_left h3
              subst h4
              refine ⟨rfl, rfl, fun _ => ?_⟩
              simp [runSegs, handleStateChange, hY]
          | right h3 =>
              have h4 := interleave_nil_right h3
              subst h4
              refine ⟨rfl, rfl, fun _ => ?_⟩
              simp [runSegs, handleStateChange, hY]

/-- Witness for C2 on the schedule where the first drill-down's deferred
segment resolves after the second drill-down completed. -/
theorem C2_witness :
    (runSegs initState rapidSchedW).currentState = "Kerala" :=
  (C2_rapid_drilldown_state "Bihar" "Kerala" initState rapidSchedW
    ⟨[fun s => { s with currentState := "Kerala" },
      fun s => { s with currentMapLevel := "district" },
      fun s => { s with currentMapLevel := "district" }], rfl,
     Interleave.right (Interleave.right (Interleave.left Interleave.nil))⟩).1

/-- Counterexample to C2 as stated: `drillDown('Maharashtra')` then
`drillDown('National')`, with the first transition's deferred
`currentMapLevel` assignment resolving last, is a realizable schedule
whose final NavigationState differs from `'National'`'s resulting state
(`currentMapLevel` is left `'district'`). -/
theorem C2_counterexample :
    rapidSchedules "Maharashtra" "National" staleResumeSched ∧
    runSegs initState staleResumeSched ≠ handleStateChange initState "National" := by
  constructor
  · exact ⟨[fun s => { s with currentState := "National", currentMapLevel := "state" },
            fun s => { s with currentMapLevel := "district" }], rfl,
           Interleave.right (Interleave.left Interleave.nil)⟩
  · decide

/-- Claim C5 (amended): the `mapSearch` listener calls the search only
when `query.length > 2`, so queries of length 1 (indeed of any length up
to 2) produce no suggestion list; every query of length at least 3
produces a suggestion dropdown, and when neither the state nor the
district records contain a substring match the dropdown is the explicit
`No results found` state rather than nothing. -/
theorem C5_search_thresholds (stateData districtData : List RegionRecord)
    (value : String) :
    (value.length ≤ 2 → onSearchInput stateData districtData value = .absent) ∧
    (3 ≤ value.length →
       onSearchInput stateData districtData value ≠ .absent ∧
       (matchingStates stateData (jsToLower value) = [] →
        districtMatchesOf districtData (jsToLower value) = [] →
        onSearchInput stateData districtData value = .noResults)) := by
  have hlen : (jsToLower value).length = value.length := jsToLower_length value
  constructor
  · intro h
    have h2 : ¬ 2 < (jsToLower value).length := by omega
    simp [onSearchInput, h2]
  · intro h
    have h2 : 2 < (jsToLower value).length := by omega
    have h3 : ¬ (jsToLower value).length < 2 := by omega
    constructor
    · simp only [onSearchInput, if_pos h2, showSearchSuggestions, if_neg h3]
      split <;> simp
    · intro hm hd
      simp [onSearchInput, if_pos h2, showSearchSuggestions, if_neg h3, hm, hd]

/-- Witness for C5: a three-character query over empty data shows the
explicit no-results state, and a one-character query shows nothing. -/
theorem C5_witness :
    onSearchInput [] [] "xyz" = SuggestionsDom.noResults ∧
    onSearchInput [] [] "a" = SuggestionsDom.absent :=
  ⟨((C5_search_thresholds [] [] "xyz").2 (by decide)).2 rfl rfl,
   (C5_search_thresholds [] [] "a").1 (by decide)⟩

/-- Counterexample to C5 as stated: the two-character query `"ab"`,
which does have a substring match in the cached state records, still
produces no suggestion list at all, because the listener only fires for
`query.length > 2`. -/
theorem C5_counterexample :
    onSearchInput demoStates [] "ab" = SuggestionsDom.absent := by
  decide

/-- Claim C6: for a granularity whose geometry slot is unloaded, a first
load that yields a bundle reads the primary (local) source exactly once
and touches the secondary (remote) source exactly when the primary read
fails; a second load for the same granularity returns the in-memory
bundle with no I/O at all, and across the two calls at most one remote
fetch happens. -/
theorem C6_geometry_idempotent (level : String)
    (localSrc remoteSrc : SrcResult Nat) (g0 : GeoStore Nat) (geo : Nat)
    (h0 : geoSlot g0 level = none)
    (h1 : geoSlot (ensureGeoLoaded localSrc remoteSrc g0 level).store level = some geo) :
    (ensureGeoLoaded localSrc remoteSrc g0 level).localReads = 1 ∧
    ((ensureGeoLoaded localSrc remoteSrc g0 level).remoteFetches = 1 ↔
       localSrc = SrcResult.fail) ∧
    ensureGeoLoaded localSrc remoteSrc
        (ensureGeoLoaded localSrc remoteSrc g0 level).store level =
      ⟨(ensureGeoLoaded localSrc remoteSrc g0 level).store, 0, 0⟩ ∧
    (ensureGeoLoaded localSrc remoteSrc g0 level).remoteFetches ≤ 1 := by
  cases localSrc with
  | ok geoL =>
      have he : ensureGeoLoaded (SrcResult.ok geoL) remoteSrc g0 level =
          ⟨setGeoSlot g0 level (some geoL), 1, 0⟩ := by
        simp [ensureGeoLoaded, h0]
      rw [he]
      refine ⟨rfl, by simp, ?_, by simp⟩
      simp [ensureGeoLoaded, geoSlot_setGeoSlot_self]
  | fail =>
      cases remoteSrc with
      | ok geoR =>
          have he : ensureGeoLoaded SrcResult.fail (SrcResult.ok geoR) g0 level =
              ⟨setGeoSlot g0 level (some geoR), 1, 1⟩ := by
            simp [ensureGeoLoaded, h0]
          rw [he]
          refine ⟨rfl, by simp, ?_, by simp⟩
          simp [ensureGeoLoaded, geoSlot_setGeoSlot_self]
      | fail =>
          have he : ensureGeoLoaded SrcResult.fail SrcResult.fail g0 level =
              ⟨g0, 1, 1⟩ := by
            simp [ensureGeoLoaded, h0]
          rw [he] at h1
          exact absurd h1 (by simp [h0])

/-- Witness for C6: local source failing, remote succeeding; the second
load performs no I/O. -/
theorem C6_witness :
    ensureGeoLoaded SrcResult.fail (SrcResult.ok 7)
        (ensureGeoLoaded SrcResult.fail (SrcResult.ok 7) ⟨none, none⟩ "state").store
        "state" =
      ⟨(ensureGeoLoaded SrcResult.fail (SrcResult.ok 7) ⟨none, none⟩ "state").store,
       0, 0⟩ :=
  (C6_geometry_idempotent "state" SrcResult.fail (SrcResult.ok 7) ⟨none, none⟩ 7
    (by decide) (by decide)).2.2.1

/-- Claim C8 (amended): a failing panel fetch never aborts the sibling
panel loads or the navigation state change (the NavigationState update
always completes and every panel with a successful fetch renders), but
only the map panel converts its failure into a user-visible toast; a
rankings, trends or operations failure is logged to the console only,
leaving the previous panel content in place with no user-visible
notice. -/
theorem C8_reload_isolation (s : DashState) (newState : String)
    (mapR trendR rankR opsR : Except String Nat) (d : PanelDom) :
    (handleStateChangeReload s newState mapR trendR rankR opsR d).1 =
      handleStateChange s newState ∧
    (handleStateChangeReload s newState mapR trendR rankR opsR d).2.mapContent =
      (match mapR with | .ok v => some v | .error _ => d.mapContent) ∧
    (handleStateChangeReload s newState mapR trendR rankR opsR d).2.trendContent =
      (match trendR with | .ok v => some v | .error _ => d.trendContent) ∧
    (handleStateChangeReload s newState mapR trendR rankR opsR d).2.rankingContent =
      (match rankR with | .ok v => some v | .error _ => d.rankingContent) ∧
    (handleStateChangeReload s newState mapR trendR rankR opsR d).2.opsContent =
      (match opsR with | .ok v => some v | .error _ => d.opsContent) ∧
    (handleStateChangeReload s newState mapR trendR rankR opsR d).2.toasts =
      d.toasts ++
        (match mapR with | .ok _ => [] | .error _ => ["Failed to load map data"]) := by
  cases mapR <;> cases trendR <;> cases rankR <;> cases opsR <;>
    simp [handleStateChangeReload, loadMapPanel, loadTrendsPanel,
      loadRankingsPanel, loadOpsPanel]

/-- Counterexample to C8 as stated: a failed rankings fetch leaves the
rankings mount unrendered and adds no user-visible toast; the failure is
reported nowhere the user can see. -/
theorem C8_counterexample :
    (handleStateChangeReload initState "Maharashtra" (Except.ok 1) (Except.ok 2)
        (Except.error "API Error: 500 Internal Server Error") (Except.ok 3)
        emptyPanelDom).2.rankingContent = none ∧
    (handleStateChangeReload initState "Maharashtra" (Except.ok 1) (Except.ok 2)
        (Except.error "API Error: 500 Internal Server Error") (Except.ok 3)
        emptyPanelDom).2.toasts = [] := by
  decide

/-- Claim C9 (amended): `performMapSearch` never mutates NavigationState,
and it obtains its data through the cached gateway: when both map-data
cache entries are fresh it issues no network request; on a missing or
stale entry the underlying `fetchAPI` does issue one. -/
theorem C9_search_readonly (netS netD : NetResponse Nat) (now : Nat)
    (s : DashState) (c : ApiCache Nat) (q : String) :
    (performMapSearch netS netD now s c q).nav = s ∧
    (isFresh c (mapDataKey "state") now = true →
     isFresh c (mapDataKey "district") now = true →
     (performMapSearch netS netD now s c q).requests = 0) := by
  constructor
  · unfold performMapSearch
    rcases h1 : fetchAPI netS now c (mapDataKey "state") with ⟨res1, c1, r1⟩
    rcases res1 with m1 | v1
    · simp [h1]
    · rcases h2 : fetchAPI netD now c1 (mapDataKey "district") with ⟨res2, c2, r2⟩
      simp [h1, h2]
  · intro hS hD
    obtain ⟨hreq1, hcache1, v1, hres1⟩ := fetchAPI_fresh netS now c _ hS
    rcases h1 : fetchAPI netS now c (mapDataKey "state") with ⟨res1, c1, r1⟩
    rw [h1] at hreq1 hcache1 hres1
    simp only at hreq1 hcache1 hres1
    subst hreq1
    subst hres1
    obtain ⟨hreq2, _hcache2, v2, hres2⟩ :=
      fetchAPI_fresh netD now c1 (mapDataKey "district") (by rw [hcache1]; exact hD)
    rcases h2 : fetchAPI netD now c1 (mapDataKey "district") with ⟨res2, c2, r2⟩
    rw [h2] at hreq2
    simp only at hreq2
    subst hreq2
    unfold performMapSearch
    rw [h1]
    dsimp only
    rw [h2]
    simp [reqCount]

/-- Witness for C9 over a cache already holding fresh entries for both
map-data keys. -/
theorem C9_witness :
    (performMapSearch (NetResponse.ok 0) (NetResponse.ok 0) 100 initState
        freshSearchCache "mum").requests = 0 :=
  (C9_search_readonly (NetResponse.ok 0) (NetResponse.ok 0) 100 initState
    freshSearchCache "mum").2 (by decide) (by decide)

/-- Counterexample to C9 as stated: on a cold cache the search issues
two network requests of its own (one per map-data granularity). -/
theorem C9_counterexample :
    (performMapSearch (NetResponse.ok 0) (NetResponse.ok 0) 100 initState
        ([] : ApiCache Nat) "mum").requests = 2 := by
  decide

end AGHI
